import Mathlib

/-!
Shallow embedding of `a50_headset_manager.py`: the endpoint-inspector
sink parser, the sink/source classification, the fallback-selection policy
and the routing-controller loop, together with theorems settling the
claims of the specification about them.

Conventions of the embedding:
* Python strings are handled as `String` / `List Char`; the helpers
  (`stripChars`, `startsW`, `containsSub`, …) reimplement the exact Python
  string operations used by the source (`str.strip`, `str.startswith`,
  `in`, `str.lower`).
* The two availability regexes of `get_sinks_with_port_availability` are
  embedded as explicit scanners over character lists with word-boundary
  and look-behind semantics matching `re.search(..., re.IGNORECASE)`.
* External I/O (the `pactl` output, USB poll results, the computed
  fallback names) enters as explicit parameters; routing commands issued
  by the controller are collected as an explicit action list.
-/

namespace A50

/-- Fixed sink name of the headset (constant `HEADSET_SINK` in the source). -/
def HEADSET_SINK : String := "alsa_output.usb-Astro_Gaming_Astro_A50-00.stereo-game"

/-- Fixed source name of the headset (constant `HEADSET_SOURCE` in the source). -/
def HEADSET_SOURCE : String := "alsa_input.usb-Astro_Gaming_Astro_A50-00.mono-chat"

/-- Information about an audio sink and its availability (`SinkInfo` dataclass). -/
structure SinkInfo where
  name : String
  sink_type : String
  is_available : Bool
deriving DecidableEq, Repr

/-- Information about an audio source and its type (`SourceInfo` dataclass). -/
structure SourceInfo where
  name : String
  source_type : String
deriving DecidableEq, Repr

/-- ASCII lower-casing of one character, as Python `str.lower` acts on ASCII. -/
def lowerChar (c : Char) : Char :=
  if 'A' ≤ c ∧ c ≤ 'Z' then Char.ofNat (c.toNat + 32) else c

/-- Lower-case a character list (Python `str.lower` on ASCII text). -/
def lowerStr (s : List Char) : List Char := s.map lowerChar

/-- Python regex word character (`\w` over ASCII). -/
def isWordChar (c : Char) : Bool :=
  ('a' ≤ c && c ≤ 'z') || ('A' ≤ c && c ≤ 'Z') || ('0' ≤ c && c ≤ '9') || c = '_'

/-- Python whitespace (`str.strip` default set and regex `\s` over ASCII). -/
def isPySpace (c : Char) : Bool :=
  c = ' ' || c = '\t' || c = '\n' || c = '\r' || c = '\x0b' || c = '\x0c'

/-- If `pat` begins `s`, return the remainder of `s`; otherwise `none`. -/
def headMatch : List Char → List Char → Option (List Char)
  | [], s => some s
  | _ :: _, [] => none
  | p :: ps, c :: cs => if p = c then headMatch ps cs else none

/-- Substring containment test (Python `pat in s`). -/
def containsSub (pat : List Char) : List Char → Bool
  | [] => (headMatch pat []).isSome
  | c :: cs => (headMatch pat (c :: cs)).isSome || containsSub pat cs

/-- Word boundary to the right of a match: end of text or a non-word character. -/
def boundR : List Char → Bool
  | [] => true
  | c :: _ => !isWordChar c

/-- Word boundary to the left of a position, given the reversed text before it. -/
def boundL : List Char → Bool
  | [] => true
  | c :: _ => !isWordChar c

/-- Drop leading Python whitespace (regex `\s*`). -/
def dropWs : List Char → List Char
  | [] => []
  | c :: cs => if isPySpace c then dropWs cs else c :: cs

/-- Drop leading Python whitespace characters (used by `str.strip`). -/
def trimLead : List Char → List Char
  | [] => []
  | c :: cs => if isPySpace c then trimLead cs else c :: cs

/-- Python `str.strip()`: remove whitespace from both ends. -/
def stripChars (l : List Char) : List Char :=
  ((trimLead ((trimLead l).reverse)).reverse)

/-- Python `s.startswith(pat)` on character lists. -/
def startsW (pat l : List Char) : Bool := (headMatch pat l).isSome

/-- Match of `\bnot available\b` or `\bavailable:\s*no\b` at one position:
`rpre` is the reversed text before the position, `rest` the text from it. -/
def negAt (rpre rest : List Char) : Bool :=
  (boundL rpre &&
    (match headMatch "not available".data rest with
      | some r => boundR r
      | none => false))
  ||
  (boundL rpre &&
    (match headMatch "available:".data rest with
      | some r =>
        match headMatch "no".data (dropWs r) with
        | some r2 => boundR r2
        | none => false
      | none => false))

/-- Look-behind `(?<=\bnot )`: the reversed text before the position starts
with the reversal of `"not "` and a word boundary precedes the `n`. -/
def lookNot : List Char → Bool
  | ' ' :: 't' :: 'o' :: 'n' :: rest => boundL rest
  | _ => false

/-- Match of `(?<!\bnot )\bavailable\)` or `\bavailable:\s*yes\b` at one position. -/
def posAt (rpre rest : List Char) : Bool :=
  (boundL rpre && !lookNot rpre && (headMatch "available)".data rest).isSome)
  ||
  (boundL rpre &&
    (match headMatch "available:".data rest with
      | some r =>
        match headMatch "yes".data (dropWs r) with
        | some r2 => boundR r2
        | none => false
      | none => false))

/-- Scan every position of the text for a positional match; `rpre` is the
reversed text already passed (Python `re.search` semantics). -/
def scanFrom (p : List Char → List Char → Bool) : List Char → List Char → Bool
  | rpre, [] => p rpre []
  | rpre, c :: cs => p rpre (c :: cs) || scanFrom p (c :: rpre) cs

/-- Search the whole line for the unavailable regex of the source,
`\bnot available\b|\bavailable:\s*no\b`, case-insensitively. -/
def reSearchNeg (s : List Char) : Bool := scanFrom negAt [] (lowerStr s)

/-- Search the whole line for the available regex of the source,
`(?<!\bnot )\bavailable\)|\bavailable:\s*yes\b`, case-insensitively. -/
def reSearchPos (s : List Char) : Bool := scanFrom posAt [] (lowerStr s)

/-- Availability classification of one port line as in the source: the
unavailable pattern is tried first, then the available pattern, else the
line contributes nothing. -/
def classifyAvailLine (stripped : List Char) : Option Bool :=
  if reSearchNeg stripped then some false
  else if reSearchPos stripped then some true
  else none

/-- Classify a sink by name patterns (`classify_sink` in the source). -/
def classify_sink (sink_name : String) : String :=
  let name_lower := lowerStr sink_name.data
  if containsSub "hdmi".data name_lower then "hdmi"
  else if containsSub "analog".data name_lower || containsSub "speaker".data name_lower then
    "analog"
  else if containsSub "usb".data name_lower then "usb"
  else "other"

/-- Classify a source by name patterns (`classify_source` in the source). -/
def classify_source (source_name : String) : String :=
  let name_lower := lowerStr source_name.data
  if containsSub ".monitor".data name_lower then "monitor"
  else if containsSub "usb".data name_lower then "usb"
  else if containsSub "mic1".data name_lower || containsSub "digital".data name_lower then
    "internal_mic"
  else if containsSub "mic2".data name_lower || containsSub "mic".data name_lower
      || containsSub "analog".data name_lower then "external_mic"
  else "other"

/-- Parser state of `get_sinks_with_port_availability`: the buffered name,
port availabilities and ports-section flag of the block being parsed, and
the sinks already emitted. -/
structure ParseState where
  current_name : Option String
  port_availabilities : List Bool
  in_ports_section : Bool
  sinks : List SinkInfo
deriving DecidableEq, Repr

/-- Initial parser state (before any line is processed). -/
def initParse : ParseState := ⟨none, [], false, []⟩

/-- Helper `save_current_sink` of the source: finalize the buffered block.
Python truthiness of `current_name` means a missing or empty name emits
nothing; an `hdmi` sink is available iff any buffered port was, any other
kind is always available. -/
def save_current_sink (st : ParseState) : List SinkInfo :=
  match st.current_name with
  | some n =>
    if n ≠ "" then
      let sink_type := classify_sink n
      let is_available := if sink_type = "hdmi" then st.port_availabilities.any id else true
      st.sinks ++ [SinkInfo.mk n sink_type is_available]
    else st.sinks
  | none => st.sinks

/-- One iteration of the line loop of `get_sinks_with_port_availability`,
mirroring the Python `if`/`elif` chain on `line` and `stripped`. -/
def processLine (st : ParseState) (line : String) : ParseState :=
  let l := line.data
  let stripped := stripChars l
  if startsW "Sink #".data stripped then
    { current_name := none, port_availabilities := [], in_ports_section := false,
      sinks := save_current_sink st }
  else if startsW "Name:".data stripped then
    -- `stripped.split(":", 1)[1].strip()`: the first colon is the one in
    -- `"Name:"`, so the tail after it is `stripped[5:]`.
    { st with current_name := some (String.mk (stripChars (stripped.drop 5))) }
  else if startsW "Ports:".data stripped then
    { st with in_ports_section := true }
  else if st.in_ports_section && !startsW "\t\t".data l && startsW "\t".data l then
    if !startsW "Port:".data stripped && stripped.contains ':' then
      { st with in_ports_section := false }
    else st
  else if st.in_ports_section && containsSub "available".data (lowerStr stripped) then
    match classifyAvailLine stripped with
    | some b => { st with port_availabilities := st.port_availabilities ++ [b] }
    | none => st
  else st

/-- Embedding of `get_sinks_with_port_availability`, taking the lines of
the `pactl list sinks` output (Python `result.stdout.splitlines()`) as the
external input. -/
def get_sinks_with_port_availability (lines : List String) : List SinkInfo :=
  save_current_sink (lines.foldl processLine initParse)

/-- Embedding of `get_sources`, taking the lines of the
`pactl list sources` output as the external input. -/
def get_sources (lines : List String) : List SourceInfo :=
  let fin := lines.foldl
    (fun (st : Option String × List SourceInfo) line =>
      let stripped := stripChars line.data
      if startsW "Source #".data stripped then
        (none,
          match st.1 with
          | some n => if n ≠ "" then st.2 ++ [SourceInfo.mk n (classify_source n)] else st.2
          | none => st.2)
      else if startsW "Name:".data stripped then
        (some (String.mk (stripChars (stripped.drop 5))), st.2)
      else st)
    ((none, []) : Option String × List SourceInfo)
  match fin.1 with
  | some n => if n ≠ "" then fin.2 ++ [SourceInfo.mk n (classify_source n)] else fin.2
  | none => fin.2

/-- Embedding of `get_best_fallback_sink`, taking the inspected sink list
as the external input; the three loops become three `find?` passes. -/
def get_best_fallback_sink (sinks : List SinkInfo) : Option String :=
  let sinks := sinks.filter (fun s => s.name != HEADSET_SINK)
  match sinks.find? (fun s => s.sink_type == "hdmi" && s.is_available) with
  | some s => some s.name
  | none =>
  match sinks.find? (fun s => s.sink_type == "analog") with
  | some s => some s.name
  | none =>
  match sinks.find? (fun s => s.is_available && s.sink_type != "usb") with
  | some s => some s.name
  | none => none

/-- Embedding of `get_best_fallback_source`, taking the inspected source
list as the external input. -/
def get_best_fallback_source (sources : List SourceInfo) : Option String :=
  let sources := sources.filter
    (fun s => s.name != HEADSET_SOURCE && s.source_type != "monitor")
  match sources.find? (fun s => s.source_type == "internal_mic") with
  | some s => some s.name
  | none =>
  match sources.find? (fun s => s.source_type == "external_mic") with
  | some s => some s.name
  | none =>
  match sources.find? (fun s => s.source_type != "usb" && s.source_type != "monitor") with
  | some s => some s.name
  | none => none

/-- Sink policy written from the words of the specification: remove the headset
sink, then first available `hdmi`, else first `analog` regardless of
availability, else first available non-`usb` sink, else none. -/
def best_fallback_sink_spec (sinks : List SinkInfo) : Option String :=
  let filtered := sinks.filter (fun s => s.name != HEADSET_SINK)
  ((filtered.find? (fun s => s.sink_type == "hdmi" && s.is_available)).map SinkInfo.name).orElse
  (fun _ => ((filtered.find? (fun s => s.sink_type == "analog")).map SinkInfo.name).orElse
  (fun _ => (filtered.find? (fun s => s.is_available && s.sink_type != "usb")).map SinkInfo.name))

/-- Source policy written from the words of the specification: remove the
headset source and all `monitor` sources, then first `internal_mic`, else
first `external_mic`, else first source neither `usb` nor `monitor`. -/
def best_fallback_source_spec (sources : List SourceInfo) : Option String :=
  let filtered := sources.filter
    (fun s => s.name != HEADSET_SOURCE && s.source_type != "monitor")
  ((filtered.find? (fun s => s.source_type == "internal_mic")).map SourceInfo.name).orElse
  (fun _ => ((filtered.find? (fun s => s.source_type == "external_mic")).map SourceInfo.name).orElse
  (fun _ => (filtered.find? (fun s => s.source_type != "usb" && s.source_type != "monitor")).map
    SourceInfo.name))

/-- Headset status as polled over USB: power and dock state
(value-comparable, as the source compares `status != last_status`). -/
structure HeadsetStatus where
  is_on : Bool
  is_docked : Bool
deriving DecidableEq, Repr

/-- Outcome of `device.get_headset_status()` inside the loop: a status, or
one of the three caught failure kinds (`DeviceNotConnected`, `USBError`,
any other exception). -/
inductive PollResult where
  | ok (status : HeadsetStatus)
  | errNotConnected
  | errUSB
  | errUnexpected
deriving DecidableEq, Repr

/-- A routing command issued by the controller: a call of
`set_default_sink` or `set_default_source` with the given name. -/
inductive RoutingAction where
  | setSink (name : String)
  | setSource (name : String)
deriving DecidableEq, Repr

/-- The mutable memory of the `main` loop: whether a device object is held
(`device is not None`), `last_status`, `last_fallback_sink`,
`last_fallback_source`, `backoff_seconds` and `poll_counter`. -/
structure ControllerState where
  device : Bool
  last_status : Option HeadsetStatus
  last_fallback_sink : Option String
  last_fallback_source : Option String
  backoff_seconds : Nat
  poll_counter : Nat
deriving DecidableEq, Repr

/-- Initial controller memory at the top of `main`. -/
def initState : ControllerState := ⟨false, none, none, none, 2, 0⟩

/-- Ceiling of the reconnect backoff (`max_backoff = 30`). -/
def max_backoff : Nat := 30

/-- Periodic fallback re-check threshold (`fallback_check_interval = 10`). -/
def fallback_check_interval : Nat := 10

/-- External inputs of one iteration of the `while True` loop: the result
of `try_connect_device()` (used only when no device is held), the result
of `get_headset_status()` (used only once a device is held), and the
values `get_best_fallback_sink()` / `get_best_fallback_source()` would
return if called this iteration. -/
structure TickEnv where
  connect_ok : Bool
  poll : PollResult
  fallback_sink : Option String
  fallback_source : Option String
deriving DecidableEq, Repr

/-- The `switch_to_fallback` closure: returns the new
`(last_fallback_sink, last_fallback_source)` pair and the routing commands
issued (output first, then input, as in the source). -/
def switch_to_fallback (env : TickEnv) :
    (Option String × Option String) × List RoutingAction :=
  let sinkPart : Option String × List RoutingAction :=
    match env.fallback_sink with
    | some n => (some n, [RoutingAction.setSink n])
    | none => (none, [])
  let sourcePart : Option String × List RoutingAction :=
    match env.fallback_source with
    | some n => (some n, [RoutingAction.setSource n])
    | none => (none, [])
  ((sinkPart.1, sourcePart.1), sinkPart.2 ++ sourcePart.2)

/-- The connected part of one loop iteration (from the `try:` poll to the
end of the iteration), given that a device is held. -/
def tickLinked (st : ControllerState) (env : TickEnv) :
    ControllerState × List RoutingAction :=
  match env.poll with
  | PollResult.errNotConnected =>
    -- `except (USBError, DeviceNotConnected)`: close, clear, switch to fallback
    let r := switch_to_fallback env
    ({ st with device := false, last_status := none,
               last_fallback_sink := r.1.1, last_fallback_source := r.1.2 }, r.2)
  | PollResult.errUSB =>
    let r := switch_to_fallback env
    ({ st with device := false, last_status := none,
               last_fallback_sink := r.1.1, last_fallback_source := r.1.2 }, r.2)
  | PollResult.errUnexpected =>
    -- `except Exception`: close and clear, no fallback switch
    ({ st with device := false, last_status := none }, [])
  | PollResult.ok status =>
    let pc := st.poll_counter + 1
    if some status ≠ st.last_status then
      if status.is_on && !status.is_docked then
        ({ st with poll_counter := 0, last_status := some status,
                   last_fallback_sink := none, last_fallback_source := none },
         [RoutingAction.setSink HEADSET_SINK, RoutingAction.setSource HEADSET_SOURCE])
      else if status.is_docked then
        let r := switch_to_fallback env
        ({ st with poll_counter := 0, last_status := some status,
                   last_fallback_sink := r.1.1, last_fallback_source := r.1.2 }, r.2)
      else
        ({ st with poll_counter := 0, last_status := some status }, [])
    else if status.is_docked && pc ≥ fallback_check_interval then
      -- periodic re-evaluation: apply only the directions that differ
      let sinkPart : Option String × List RoutingAction :=
        if env.fallback_sink ≠ st.last_fallback_sink then
          match env.fallback_sink with
          | some n => (some n, [RoutingAction.setSink n])
          | none => (none, [])
        else (st.last_fallback_sink, [])
      let sourcePart : Option String × List RoutingAction :=
        if env.fallback_source ≠ st.last_fallback_source then
          match env.fallback_source with
          | some n => (some n, [RoutingAction.setSource n])
          | none => (none, [])
        else (st.last_fallback_source, [])
      ({ st with poll_counter := 0,
                 last_fallback_sink := sinkPart.1, last_fallback_source := sourcePart.1 },
       sinkPart.2 ++ sourcePart.2)
    else
      ({ st with poll_counter := pc }, [])

/-- One full iteration of the `while True` loop of `main`: the reconnect
attempt when no device is held (with backoff bookkeeping), falling through
to the connected part on success, exactly as in the source. -/
def tick (st : ControllerState) (env : TickEnv) : ControllerState × List RoutingAction :=
  if st.device = false then
    if env.connect_ok then
      tickLinked { st with device := true, backoff_seconds := 2, last_status := none } env
    else
      ({ st with backoff_seconds := Nat.min (st.backoff_seconds * 2) max_backoff }, [])
  else
    tickLinked st env

/-! ## Helper lemmas -/

/-- A sink found in the headset-filtered list does not carry the headset name. -/
theorem find?_filtered_sink_ne (sinks : List SinkInfo) (p : SinkInfo → Bool) (s : SinkInfo)
    (h : (sinks.filter (fun t => t.name != HEADSET_SINK)).find? p = some s) :
    s.name ≠ HEADSET_SINK := by
  have hm := List.mem_of_find?_eq_some h
  have h2 := (List.mem_filter.mp hm).2
  simpa using h2

/-- A source found in the filtered source list is one of the input sources,
is not the headset source and is not a monitor source. -/
theorem find?_filtered_source_facts (sources : List SourceInfo) (p : SourceInfo → Bool)
    (s : SourceInfo)
    (h : (sources.filter
      (fun t => t.name != HEADSET_SOURCE && t.source_type != "monitor")).find? p = some s) :
    s ∈ sources ∧ s.name ≠ HEADSET_SOURCE ∧ s.source_type ≠ "monitor" := by
  have hm := List.mem_of_find?_eq_some h
  have h2 := List.mem_filter.mp hm
  have h3 := h2.2
  simp only [Bool.and_eq_true, bne_iff_ne, ne_eq] at h3
  exact ⟨h2.1, h3.1, h3.2⟩

/-- Every sink emitted by `save_current_sink` was already emitted or has a
non-empty name (Python truthiness of `current_name` guards the append). -/
theorem save_current_sink_mem (st : ParseState) (s : SinkInfo)
    (h : s ∈ save_current_sink st) : s ∈ st.sinks ∨ s.name ≠ "" := by
  simp only [save_current_sink] at h
  split at h
  · split at h
    · rcases List.mem_append.mp h with h1 | h1
      · exact Or.inl h1
      · right
        have hs : s = SinkInfo.mk _ _ _ := List.mem_singleton.mp h1
        subst hs
        simpa using (by assumption : _ ≠ "")
    · exact Or.inl h
  · exact Or.inl h

/-- Every sink held by the parser state after one line was already held or
has a non-empty name. -/
theorem processLine_sinks_sub (st : ParseState) (line : String) (s : SinkInfo)
    (h : s ∈ (processLine st line).sinks) : s ∈ st.sinks ∨ s.name ≠ "" := by
  simp only [processLine] at h
  split at h
  · exact save_current_sink_mem st s h
  · split at h
    · exact Or.inl h
    · split at h
      · exact Or.inl h
      · split at h
        · split at h
          · exact Or.inl h
          · exact Or.inl h
        · split at h
          · split at h
            · exact Or.inl h
            · exact Or.inl h
          · exact Or.inl h

/-- Every sink held after folding the parser over any lines was already
held or has a non-empty name. -/
theorem foldl_processLine_sinks (lines : List String) :
    ∀ st s, s ∈ (lines.foldl processLine st).sinks → s ∈ st.sinks ∨ s.name ≠ "" := by
  induction lines with
  | nil => exact fun st s h => Or.inl h
  | cons line rest ih =>
    intro st s h
    rcases ih (processLine st line) s h with h1 | h1
    · exact processLine_sinks_sub st line s h1
    · exact Or.inr h1

/-! ## Claim theorems -/

/-- C4: `get_best_fallback_sink` first removes the sink carrying the headset name
and then returns the first sink in enumeration order matching, in priority
order: (1) an available `hdmi` sink, (2) an `analog` sink regardless of
availability, (3) any other available sink of kind other than `usb`; it
returns `none` when no rule matches and never returns the headset name. -/
theorem C4_sink_policy (sinks : List SinkInfo) :
    get_best_fallback_sink sinks = best_fallback_sink_spec sinks ∧
    ∀ n, get_best_fallback_sink sinks = some n → n ≠ HEADSET_SINK := by
  constructor
  · simp only [get_best_fallback_sink, best_fallback_sink_spec]
    cases h1 : (sinks.filter (fun s => s.name != HEADSET_SINK)).find?
        (fun s => s.sink_type == "hdmi" && s.is_available) with
    | some s => simp [Option.orElse]
    | none =>
      cases h2 : (sinks.filter (fun s => s.name != HEADSET_SINK)).find?
          (fun s => s.sink_type == "analog") with
      | some s => simp [h1, Option.orElse]
      | none =>
        cases h3 : (sinks.filter (fun s => s.name != HEADSET_SINK)).find?
            (fun s => s.is_available && s.sink_type != "usb") with
        | some s => simp [h1, h2, Option.orElse]
        | none => simp [h1, h2, h3, Option.orElse]
  · intro n hn
    simp only [get_best_fallback_sink] at hn
    cases h1 : (sinks.filter (fun s => s.name != HEADSET_SINK)).find?
        (fun s => s.sink_type == "hdmi" && s.is_available) with
    | some s =>
      rw [h1] at hn
      have := find?_filtered_sink_ne sinks _ s h1
      simpa [← Option.some_inj.mp hn] using this
    | none =>
      rw [h1] at hn
      cases h2 : (sinks.filter (fun s => s.name != HEADSET_SINK)).find?
          (fun s => s.sink_type == "analog") with
      | some s =>
        rw [h2] at hn
        have := find?_filtered_sink_ne sinks _ s h2
        simpa [← Option.some_inj.mp hn] using this
      | none =>
        rw [h2] at hn
        cases h3 : (sinks.filter (fun s => s.name != HEADSET_SINK)).find?
            (fun s => s.is_available && s.sink_type != "usb") with
        | some s =>
          rw [h3] at hn
          have := find?_filtered_sink_ne sinks _ s h3
          simpa [← Option.some_inj.mp hn] using this
        | none => rw [h3] at hn; exact absurd hn (by simp)

/-- Witness for C4 at a concrete sink list: the analog speaker is chosen,
agreeing with the specification policy, and is not the headset sink. -/
theorem C4_sink_policy_witness :
    get_best_fallback_sink [SinkInfo.mk "x.hdmi" "hdmi" false, SinkInfo.mk "sp" "analog" true]
      = best_fallback_sink_spec
        [SinkInfo.mk "x.hdmi" "hdmi" false, SinkInfo.mk "sp" "analog" true] ∧
    ("sp" : String) ≠ HEADSET_SINK := by
  have h := C4_sink_policy [SinkInfo.mk "x.hdmi" "hdmi" false, SinkInfo.mk "sp" "analog" true]
  exact ⟨h.1, h.2 "sp" (by decide)⟩

/-- C5: `get_best_fallback_source` first removes the source carrying the
headset name and every monitor source, then returns the first `internal_mic`, else
the first `external_mic`, else the first remaining source whose kind is
neither `usb` nor `monitor`, else `none`; any returned name belongs to a
non-monitor input source and is never the headset name. -/
theorem C5_source_policy (sources : List SourceInfo) :
    get_best_fallback_source sources = best_fallback_source_spec sources ∧
    ∀ n, get_best_fallback_source sources = some n →
      n ≠ HEADSET_SOURCE ∧ ∃ s, s ∈ sources ∧ s.name = n ∧ s.source_type ≠ "monitor" := by
  constructor
  · simp only [get_best_fallback_source, best_fallback_source_spec]
    cases h1 : (sources.filter
        (fun s => s.name != HEADSET_SOURCE && s.source_type != "monitor")).find?
        (fun s => s.source_type == "internal_mic") with
    | some s => simp [Option.orElse]
    | none =>
      cases h2 : (sources.filter
          (fun s => s.name != HEADSET_SOURCE && s.source_type != "monitor")).find?
          (fun s => s.source_type == "external_mic") with
      | some s => simp [h1, Option.orElse]
      | none =>
        cases h3 : (sources.filter
            (fun s => s.name != HEADSET_SOURCE && s.source_type != "monitor")).find?
            (fun s => s.source_type != "usb" && s.source_type != "monitor") with
        | some s => simp [h1, h2, Option.orElse]
        | none => simp [h1, h2, h3, Option.orElse]
  · intro n hn
    simp only [get_best_fallback_source] at hn
    cases h1 : (sources.filter
        (fun s => s.name != HEADSET_SOURCE && s.source_type != "monitor")).find?
        (fun s => s.source_type == "internal_mic") with
    | some s =>
      rw [h1] at hn
      have hf := find?_filtered_source_facts sources _ s h1
      have hname : s.name = n := Option.some_inj.mp hn
      exact ⟨hname ▸ hf.2.1, s, hf.1, hname, hf.2.2⟩
    | none =>
      rw [h1] at hn
      cases h2 : (sources.filter
          (fun s => s.name != HEADSET_SOURCE && s.source_type != "monitor")).find?
          (fun s => s.source_type == "external_mic") with
      | some s =>
        rw [h2] at hn
        have hf := find?_filtered_source_facts sources _ s h2
        have hname : s.name = n := Option.some_inj.mp hn
        exact ⟨hname ▸ hf.2.1, s, hf.1, hname, hf.2.2⟩
      | none =>
        rw [h2] at hn
        cases h3 : (sources.filter
            (fun s => s.name != HEADSET_SOURCE && s.source_type != "monitor")).find?
            (fun s => s.source_type != "usb" && s.source_type != "monitor") with
        | some s =>
          rw [h3] at hn
          have hf := find?_filtered_source_facts sources _ s h3
          have hname : s.name = n := Option.some_inj.mp hn
          exact ⟨hname ▸ hf.2.1, s, hf.1, hname, hf.2.2⟩
        | none => rw [h3] at hn; exact absurd hn (by simp)

/-- Witness for C5 at a concrete source list: the internal mic is chosen,
agreeing with the specification policy; it is not the headset source and
belongs to the list with a non-monitor kind. -/
theorem C5_source_policy_witness :
    get_best_fallback_source [SourceInfo.mk "m1" "internal_mic", SourceInfo.mk "m2" "external_mic"]
      = best_fallback_source_spec
        [SourceInfo.mk "m1" "internal_mic", SourceInfo.mk "m2" "external_mic"] ∧
    ("m1" : String) ≠ HEADSET_SOURCE ∧
    ∃ s, s ∈ [SourceInfo.mk "m1" "internal_mic", SourceInfo.mk "m2" "external_mic"] ∧
      s.name = "m1" ∧ s.source_type ≠ "monitor" := by
  have h := C5_source_policy
    [SourceInfo.mk "m1" "internal_mic", SourceInfo.mk "m2" "external_mic"]
  exact ⟨h.1, h.2 "m1" (by decide)⟩

/-- C8: the port-availability classifier checks the unavailable regex
first, so any line it matches (in particular the phrasings `not available`
and `available: no`) is classified unavailable even though it contains the
substring `available`; the phrasings bare `available)` and
`available: yes` are classified available; and a whole hdmi sink block
whose availability line reads `not available` parses as unavailable. -/
theorem C8_availability_matching :
    (∀ l : List Char, reSearchNeg l = true → classifyAvailLine l = some false) ∧
    classifyAvailLine
      "[Out] HDMI1: Digital Output (type: HDMI, priority: 1100, availability group: Legacy 1, not available)".data
      = some false ∧
    classifyAvailLine "Port: HDMI Output (type: HDMI, priority: 0, available: no)".data
      = some false ∧
    classifyAvailLine "[Out] HDMI1: Digital Output (type: HDMI, priority: 1100, available)".data
      = some true ∧
    classifyAvailLine "Port: HDMI Output (type: HDMI, priority: 0, available: yes)".data
      = some true ∧
    get_sinks_with_port_availability
      ["Sink #0", "\tName: alsa_output.pci.hdmi-stereo", "\tPorts:",
       "\t\thdmi-output-0: HDMI (type: HDMI, priority: 100, not available)"]
      = [SinkInfo.mk "alsa_output.pci.hdmi-stereo" "hdmi" false] := by
  refine ⟨?_, by decide, by decide, by decide, by decide, by decide⟩
  intro l h
  simp [classifyAvailLine, h]

/-- Witness for C8: a concrete line matching the unavailable regex is
classified unavailable. -/
theorem C8_availability_matching_witness :
    classifyAvailLine "foo bar, not available)".data = some false :=
  C8_availability_matching.1 "foo bar, not available)".data (by decide)

/-- C10: the sink parser emits a `SinkInfo` only for blocks with a
non-empty name: empty enumeration output yields the empty list, every
emitted sink has a non-empty name, and concrete blocks lacking a `Name:`
line or carrying an empty name produce no entry. -/
theorem C10_parser_nonempty_names :
    get_sinks_with_port_availability [] = [] ∧
    (∀ lines s, s ∈ get_sinks_with_port_availability lines → s.name ≠ "") ∧
    get_sinks_with_port_availability ["Sink #0", "\tState: RUNNING"] = [] ∧
    get_sinks_with_port_availability ["Sink #0", "\tName:"] = [] := by
  refine ⟨by decide, ?_, by decide, by decide⟩
  intro lines s h
  have h1 := save_current_sink_mem (lines.foldl processLine initParse) s h
  rcases h1 with h1 | h1
  · rcases foldl_processLine_sinks lines initParse s h1 with h2 | h2
    · simp [initParse] at h2
    · exact h2
  · exact h1

/-- Witness for C10: the parser run on one well-formed block emits the
sink `foo`, whose name is non-empty by the theorem. -/
theorem C10_parser_nonempty_names_witness :
    (SinkInfo.mk "foo" "other" true).name ≠ "" :=
  C10_parser_nonempty_names.2.1 ["Sink #0", "\tName: foo"]
    (SinkInfo.mk "foo" "other" true) (by decide)

/-- No branch of the connected part of an iteration changes the backoff. -/
theorem tickLinked_backoff (st : ControllerState) (env : TickEnv) :
    (tickLinked st env).1.backoff_seconds = st.backoff_seconds := by
  rcases env with ⟨c, p, fs, fsrc⟩
  cases p with
  | ok status =>
    simp only [tickLinked]
    split
    · split
      · rfl
      · split
        · rfl
        · rfl
    · split
      · rfl
      · rfl
  | errNotConnected => rfl
  | errUSB => rfl
  | errUnexpected => rfl

/-- C7: from any reachable backoff (at most the ceiling), a failed connect
attempt sets the backoff to double-capped-at-the-ceiling, which is
monotonically non-decreasing and never exceeds the ceiling; a successful
connect resets the backoff to its floor of 2 for the rest of the tick. -/
theorem C7_backoff (st : ControllerState) (p : PollResult) (fs fsrc : Option String)
    (hdev : st.device = false) (hcap : st.backoff_seconds ≤ max_backoff) :
    ((tick st ⟨false, p, fs, fsrc⟩).1.backoff_seconds
        = Nat.min (st.backoff_seconds * 2) max_backoff ∧
      st.backoff_seconds ≤ (tick st ⟨false, p, fs, fsrc⟩).1.backoff_seconds ∧
      (tick st ⟨false, p, fs, fsrc⟩).1.backoff_seconds ≤ max_backoff) ∧
    (tick st ⟨true, p, fs, fsrc⟩).1.backoff_seconds = 2 := by
  constructor
  · have he : (tick st ⟨false, p, fs, fsrc⟩).1.backoff_seconds
        = Nat.min (st.backoff_seconds * 2) max_backoff := by
      simp [tick, hdev]
    refine ⟨he, ?_, ?_⟩
    · rw [he]
      exact Nat.le_min.mpr ⟨by omega, hcap⟩
    · rw [he]
      exact Nat.min_le_right _ _
  · have ht : tick st ⟨true, p, fs, fsrc⟩
        = tickLinked { st with device := true, backoff_seconds := 2, last_status := none }
            ⟨true, p, fs, fsrc⟩ := by
      simp [tick, hdev]
    rw [ht, tickLinked_backoff]

/-- Witness for C7 at a concrete disconnected state with backoff 4. -/
theorem C7_backoff_witness :
    ((tick ⟨false, none, none, none, 4, 0⟩
          ⟨false, PollResult.errNotConnected, none, none⟩).1.backoff_seconds
        = Nat.min (4 * 2) max_backoff ∧
      (4 : Nat) ≤ (tick ⟨false, none, none, none, 4, 0⟩
          ⟨false, PollResult.errNotConnected, none, none⟩).1.backoff_seconds ∧
      (tick ⟨false, none, none, none, 4, 0⟩
          ⟨false, PollResult.errNotConnected, none, none⟩).1.backoff_seconds ≤ max_backoff) ∧
    (tick ⟨false, none, none, none, 4, 0⟩
        ⟨true, PollResult.errNotConnected, none, none⟩).1.backoff_seconds = 2 :=
  C7_backoff ⟨false, none, none, none, 4, 0⟩ PollResult.errNotConnected none none rfl
    (by decide)

/-- C1 counterexample: in the Linked state, a poll that fails with an
unexpected error kind closes the link and clears the state, but issues no
routing action at all, even though a fallback sink `h` and source `m` are
available — refuting the claim that all three failure kinds immediately
assert fallback routing for both directions. -/
theorem C1_counterexample :
    (tick ⟨true, some ⟨true, false⟩, none, none, 2, 0⟩
        ⟨false, PollResult.errUnexpected, some "h", some "m"⟩).2 = [] ∧
    (tick ⟨true, some ⟨true, false⟩, none, none, 2, 0⟩
        ⟨false, PollResult.errUnexpected, some "h", some "m"⟩).1.device = false ∧
    (tick ⟨true, some ⟨true, false⟩, none, none, 2, 0⟩
        ⟨false, PollResult.errUnexpected, some "h", some "m"⟩).1.last_status = none := by
  decide

/-- C1 amended: on a poll failing with `NotConnected` or `TransportError`
the controller closes the link, clears its state to NoLink and asserts
fallback routing for both directions; on an unexpected error kind it
closes the link and clears its state but asserts no routing at all. -/
theorem C1_poll_failure_handling (st : ControllerState) (c : Bool) (fs fsrc : Option String)
    (hdev : st.device = true) :
    tick st ⟨c, PollResult.errNotConnected, fs, fsrc⟩
      = ({ st with device := false, last_status := none,
                   last_fallback_sink :=
                     (switch_to_fallback ⟨c, PollResult.errNotConnected, fs, fsrc⟩).1.1,
                   last_fallback_source :=
                     (switch_to_fallback ⟨c, PollResult.errNotConnected, fs, fsrc⟩).1.2 },
         (switch_to_fallback ⟨c, PollResult.errNotConnected, fs, fsrc⟩).2) ∧
    tick st ⟨c, PollResult.errUSB, fs, fsrc⟩
      = ({ st with device := false, last_status := none,
                   last_fallback_sink :=
                     (switch_to_fallback ⟨c, PollResult.errUSB, fs, fsrc⟩).1.1,
                   last_fallback_source :=
                     (switch_to_fallback ⟨c, PollResult.errUSB, fs, fsrc⟩).1.2 },
         (switch_to_fallback ⟨c, PollResult.errUSB, fs, fsrc⟩).2) ∧
    tick st ⟨c, PollResult.errUnexpected, fs, fsrc⟩
      = ({ st with device := false, last_status := none }, []) := by
  refine ⟨?_, ?_, ?_⟩ <;> simp [tick, tickLinked, hdev]

/-- Witness for C1 at a concrete linked state with both fallbacks found. -/
theorem C1_poll_failure_handling_witness :
    tick ⟨true, none, none, none, 2, 0⟩ ⟨false, PollResult.errNotConnected, some "h", some "m"⟩
      = (⟨false, none, some "h", some "m", 2, 0⟩,
         [RoutingAction.setSink "h", RoutingAction.setSource "m"]) ∧
    tick ⟨true, none, none, none, 2, 0⟩ ⟨false, PollResult.errUSB, some "h", some "m"⟩
      = (⟨false, none, some "h", some "m", 2, 0⟩,
         [RoutingAction.setSink "h", RoutingAction.setSource "m"]) ∧
    tick ⟨true, none, none, none, 2, 0⟩ ⟨false, PollResult.errUnexpected, some "h", some "m"⟩
      = (⟨false, none, none, none, 2, 0⟩, []) :=
  C1_poll_failure_handling ⟨true, none, none, none, 2, 0⟩ false (some "h") (some "m") rfl

/-- C2 counterexample: a poll failing with `NotConnected` loses the link,
yet `last_fallback_sink` ends as `some "h"` (the fallback just asserted),
not `none` — refuting the claim that both memories are cleared to unknown
whenever the link is lost. -/
theorem C2_counterexample :
    (tick ⟨true, some ⟨false, true⟩, some "old", some "oldm", 2, 0⟩
        ⟨false, PollResult.errNotConnected, some "h", some "m"⟩).1.device = false ∧
    (tick ⟨true, some ⟨false, true⟩, some "old", some "oldm", 2, 0⟩
        ⟨false, PollResult.errNotConnected, some "h", some "m"⟩).1.last_fallback_sink
      = some "h" := by
  decide

/-- C2 amended: the fallback memories are cleared to `none` exactly on a
transition to Active; when the link is lost through `NotConnected` or a
transport error they are overwritten with precisely the fallback names
just asserted (or `none` where none was available), and an unexpected
poll error leaves them unchanged. -/
theorem C2_fallback_memory (st : ControllerState) (c : Bool) (fs fsrc : Option String)
    (s : HeadsetStatus) (hdev : st.device = true)
    (hon : s.is_on = true) (hnd : s.is_docked = false)
    (hch : st.last_status ≠ some s) :
    ((tick st ⟨c, PollResult.ok s, fs, fsrc⟩).1.last_fallback_sink = none ∧
     (tick st ⟨c, PollResult.ok s, fs, fsrc⟩).1.last_fallback_source = none) ∧
    ((tick st ⟨c, PollResult.errNotConnected, fs, fsrc⟩).1.last_fallback_sink = fs ∧
     (tick st ⟨c, PollResult.errNotConnected, fs, fsrc⟩).1.last_fallback_source = fsrc) ∧
    ((tick st ⟨c, PollResult.errUSB, fs, fsrc⟩).1.last_fallback_sink = fs ∧
     (tick st ⟨c, PollResult.errUSB, fs, fsrc⟩).1.last_fallback_source = fsrc) ∧
    ((tick st ⟨c, PollResult.errUnexpected, fs, fsrc⟩).1.last_fallback_sink
        = st.last_fallback_sink ∧
     (tick st ⟨c, PollResult.errUnexpected, fs, fsrc⟩).1.last_fallback_source
        = st.last_fallback_source) := by
  have hne : some s ≠ st.last_status := Ne.symm hch
  refine ⟨⟨?_, ?_⟩, ⟨?_, ?_⟩, ⟨?_, ?_⟩, ⟨?_, ?_⟩⟩ <;>
    cases fs <;> cases fsrc <;>
    simp [tick, tickLinked, hdev, hne, hon, hnd, switch_to_fallback]

/-- Witness for C2 at a concrete linked state and an Active status. -/
theorem C2_fallback_memory_witness :
    (((tick ⟨true, none, some "old", some "oldm", 2, 0⟩
          ⟨false, PollResult.ok ⟨true, false⟩, some "h", some "m"⟩).1.last_fallback_sink
        = none ∧
      (tick ⟨true, none, some "old", some "oldm", 2, 0⟩
          ⟨false, PollResult.ok ⟨true, false⟩, some "h", some "m"⟩).1.last_fallback_source
        = none) ∧
     ((tick ⟨true, none, some "old", some "oldm", 2, 0⟩
          ⟨false, PollResult.errNotConnected, some "h", some "m"⟩).1.last_fallback_sink
        = some "h" ∧
      (tick ⟨true, none, some "old", some "oldm", 2, 0⟩
          ⟨false, PollResult.errNotConnected, some "h", some "m"⟩).1.last_fallback_source
        = some "m") ∧
     ((tick ⟨true, none, some "old", some "oldm", 2, 0⟩
          ⟨false, PollResult.errUSB, some "h", some "m"⟩).1.last_fallback_sink
        = some "h" ∧
      (tick ⟨true, none, some "old", some "oldm", 2, 0⟩
          ⟨false, PollResult.errUSB, some "h", some "m"⟩).1.last_fallback_source
        = some "m") ∧
     ((tick ⟨true, none, some "old", some "oldm", 2, 0⟩
          ⟨false, PollResult.errUnexpected, some "h", some "m"⟩).1.last_fallback_sink
        = some "old" ∧
      (tick ⟨true, none, some "old", some "oldm", 2, 0⟩
          ⟨false, PollResult.errUnexpected, some "h", some "m"⟩).1.last_fallback_source
        = some "oldm")) :=
  C2_fallback_memory ⟨true, none, some "old", some "oldm", 2, 0⟩ false
    (some "h") (some "m") ⟨true, false⟩ rfl rfl rfl (by decide)

/-- C3 counterexample: a successful reconnect (connect succeeding from
NoLink, first poll seeing the headset off and undocked) leaves the stale
fallback memory `some "stale"` in place — refuting the claim that all
fields of the controller memory are reset on every reconnect. -/
theorem C3_counterexample :
    (tick ⟨false, none, some "stale", some "stalem", 30, 7⟩
        ⟨true, PollResult.ok ⟨false, false⟩, none, none⟩).1.last_fallback_sink
      = some "stale" := by
  decide

/-- C3 amended: a successful reconnect resets only the backoff (to its
floor of 2) and the last-known status (cleared, then set to the freshly
polled status by the same tick, which also zeroes the periodic counter);
the fallback-name memories keep their pre-disconnect values. -/
theorem C3_reconnect_reset (st : ControllerState) (fs fsrc : Option String)
    (s : HeadsetStatus) (hdev : st.device = false)
    (hoff : s.is_on = false) (hnd : s.is_docked = false) :
    tick st ⟨true, PollResult.ok s, fs, fsrc⟩
      = ({ st with device := true, backoff_seconds := 2, last_status := some s,
                   poll_counter := 0 }, []) := by
  simp [tick, tickLinked, hdev, hoff, hnd]

/-- Witness for C3 at a concrete disconnected state with stale memory. -/
theorem C3_reconnect_reset_witness :
    tick ⟨false, none, some "stale", some "stalem", 30, 7⟩
        ⟨true, PollResult.ok ⟨false, false⟩, none, none⟩
      = (⟨true, some ⟨false, false⟩, some "stale", some "stalem", 2, 0⟩, []) :=
  C3_reconnect_reset ⟨false, none, some "stale", some "stalem", 30, 7⟩ none none
    ⟨false, false⟩ rfl rfl rfl

/-- C9: a successful poll whose changed status is powered-off and
undocked updates only the last-known status and zeroes the periodic
counter: no routing command is issued and the fallback memories (and all
other fields) are untouched. -/
theorem C9_off_undocked_frame (st : ControllerState) (env : TickEnv) (s : HeadsetStatus)
    (hdev : st.device = true) (hpoll : env.poll = PollResult.ok s)
    (hoff : s.is_on = false) (hnd : s.is_docked = false)
    (hch : st.last_status ≠ some s) :
    tick st env = ({ st with poll_counter := 0, last_status := some s }, []) := by
  have hne : some s ≠ st.last_status := Ne.symm hch
  simp [tick, tickLinked, hdev, hpoll, hne, hoff, hnd]

/-- Witness for C9 at a concrete linked, docked-memory state. -/
theorem C9_off_undocked_frame_witness :
    tick ⟨true, some ⟨true, true⟩, some "h", some "m", 2, 3⟩
        ⟨false, PollResult.ok ⟨false, false⟩, some "h2", some "m2"⟩
      = (⟨true, some ⟨false, false⟩, some "h", some "m", 2, 0⟩, []) :=
  C9_off_undocked_frame ⟨true, some ⟨true, true⟩, some "h", some "m", 2, 3⟩
    ⟨false, PollResult.ok ⟨false, false⟩, some "h2", some "m2"⟩ ⟨false, false⟩
    rfl rfl rfl rfl (by decide)

/-- C6: starting linked with an Active status remembered, a run of polls
Docked, same Docked, Active applies fallback routing exactly once — the
first Docked tick issues precisely the fallback switch, the second tick
with the unchanged Docked status (periodic counter below its threshold)
issues nothing, and the final Active tick issues only the headset-owned
sink and source. -/
theorem C6_docked_idempotent (st : ControllerState) (e2 e3 e4 : TickEnv)
    (sA sD : HeadsetStatus)
    (hdev : st.device = true) (hlast : st.last_status = some sA)
    (hAon : sA.is_on = true) (hAnd : sA.is_docked = false)
    (hDd : sD.is_docked = true)
    (h2 : e2.poll = PollResult.ok sD) (h3 : e3.poll = PollResult.ok sD)
    (h4 : e4.poll = PollResult.ok sA) :
    (tick st e2).2 = (switch_to_fallback e2).2 ∧
    (tick (tick st e2).1 e3).2 = [] ∧
    (tick (tick (tick st e2).1 e3).1 e4).2
      = [RoutingAction.setSink HEADSET_SINK, RoutingAction.setSource HEADSET_SOURCE] := by
  have hDA : sD ≠ sA := by
    intro h
    rw [h, hAnd] at hDd
    exact Bool.false_ne_true hDd
  have hne2 : some sD ≠ st.last_status := by
    rw [hlast]
    intro h
    exact hDA (Option.some_inj.mp h)
  have hDcond : (sD.is_on && !sD.is_docked) = false := by simp [hDd]
  have hstep2 : tick st e2
      = ({ st with poll_counter := 0, last_status := some sD,
                   last_fallback_sink := (switch_to_fallback e2).1.1,
                   last_fallback_source := (switch_to_fallback e2).1.2 },
         (switch_to_fallback e2).2) := by
    simp [tick, tickLinked, hdev, h2, hne2, hDcond, hDd]
  have hstep3 : tick (tick st e2).1 e3
      = ({ st with poll_counter := 1, last_status := some sD,
                   last_fallback_sink := (switch_to_fallback e2).1.1,
                   last_fallback_source := (switch_to_fallback e2).1.2 }, []) := by
    rw [hstep2]
    simp [tick, tickLinked, hdev, h3, fallback_check_interval]
  have hne4 : some sA ≠ some sD := by
    intro h
    exact hDA (Option.some_inj.mp h).symm
  have hstep4 : (tick (tick (tick st e2).1 e3).1 e4).2
      = [RoutingAction.setSink HEADSET_SINK, RoutingAction.setSource HEADSET_SOURCE] := by
    rw [hstep3]
    simp [tick, tickLinked, hdev, h4, hne4, hAon, hAnd]
  exact ⟨by rw [hstep2], by rw [hstep3], hstep4⟩

/-- Witness for C6 at concrete statuses and environments. -/
theorem C6_docked_idempotent_witness :
    (tick ⟨true, some ⟨true, false⟩, none, none, 2, 0⟩
        ⟨false, PollResult.ok ⟨true, true⟩, some "h", some "m"⟩).2
      = (switch_to_fallback ⟨false, PollResult.ok ⟨true, true⟩, some "h", some "m"⟩).2 ∧
    (tick (tick ⟨true, some ⟨true, false⟩, none, none, 2, 0⟩
        ⟨false, PollResult.ok ⟨true, true⟩, some "h", some "m"⟩).1
        ⟨false, PollResult.ok ⟨true, true⟩, some "h", some "m"⟩).2 = [] ∧
    (tick (tick (tick ⟨true, some ⟨true, false⟩, none, none, 2, 0⟩
        ⟨false, PollResult.ok ⟨true, true⟩, some "h", some "m"⟩).1
        ⟨false, PollResult.ok ⟨true, true⟩, some "h", some "m"⟩).1
        ⟨false, PollResult.ok ⟨true, false⟩, some "h", some "m"⟩).2
      = [RoutingAction.setSink HEADSET_SINK, RoutingAction.setSource HEADSET_SOURCE] :=
  C6_docked_idempotent ⟨true, some ⟨true, false⟩, none, none, 2, 0⟩
    ⟨false, PollResult.ok ⟨true, true⟩, some "h", some "m"⟩
    ⟨false, PollResult.ok ⟨true, true⟩, some "h", some "m"⟩
    ⟨false, PollResult.ok ⟨true, false⟩, some "h", some "m"⟩
    ⟨true, false⟩ ⟨true, true⟩ rfl rfl rfl rfl rfl rfl rfl rfl

end A50
